import Mathlib

/-!
Shallow embedding of the risk-scoring engine of the Student Data Risk Mapper
(`app/services/scoring.py` and the answer schema `app/schemas/assessment.py`),
together with proofs of the specified properties of the engine.

Python integers are embedded as `Nat` (every contribution in the engine is a
non-negative literal added to an accumulator starting at 0, and the only other
arithmetic is `min` with an upper cap).  Python strings are `String`, lists are
`List`, and the fixed-key `breakdown` dict is a record with one field per key.
-/

/-- Embedding of `AssessmentAnswers` (pydantic model).  Enumerated fields are
strings so that values outside the declared vocabulary remain representable,
exactly as arbitrary strings can reach the scoring branches in the source.
Defaults mirror the pydantic field defaults. -/
structure AssessmentAnswers where
  data_types : List String := []
  data_types_unknown : Bool := false
  storage_location : String := "unknown"
  data_region : String := "unknown"
  subprocessors_disclosed : String := "unknown"
  retention_policy_stated : String := "unknown"
  deletion_process : String := "unknown"
  sso_supported : String := "unknown"
  mfa_available : String := "unknown"
  rbac_available : String := "unknown"
  encryption_transit : String := "unknown"
  encryption_rest : String := "unknown"
  audit_logs_available : String := "unknown"
  third_party_sharing : String := "unknown"
  used_for_advertising : String := "unknown"
  used_for_ai_training : String := "unknown"
  data_sold : String := "unknown"
  integration_types : List String := []
  integration_method : String := "unknown"
  integration_frequency : String := "unknown"
  sis_writeback : String := "unknown"
  deriving DecidableEq, Repr

/-- Embedding of the `ReasonCode` dataclass. -/
structure ReasonCode where
  code : String
  explanation : String
  category : String
  points : Nat
  deriving DecidableEq, Repr

/-- Embedding of the fixed-key `breakdown` dict of `ScoreResult`. -/
structure ScoreBreakdown where
  sensitivity : Nat
  exposure : Nat
  security_controls : Nat
  vendor_posture : Nat
  integration_blast_radius : Nat
  deriving DecidableEq, Repr

/-- Embedding of the `ScoreResult` dataclass. -/
structure ScoreResult where
  total : Nat
  breakdown : ScoreBreakdown
  reason_codes : List ReasonCode
  risk_tier : String
  deriving DecidableEq, Repr

/-- Embedding of the `DATA_TYPE_POINTS` dict: `none` for keys absent from the
table; call sites use `.getD 0`, mirroring Python `dict.get(key, 0)`. -/
def DATA_TYPE_POINTS (data_type : String) : Option Nat :=
  if data_type = "iep_504" then some 8
  else if data_type = "health" then some 8
  else if data_type = "behavioral_sel" then some 7
  else if data_type = "biometrics" then some 8
  else if data_type = "precise_location" then some 7
  else if data_type = "discipline" then some 6
  else if data_type = "photos_video_audio" then some 4
  else if data_type = "staff_notes" then some 4
  else if data_type = "academic_records" then some 3
  else if data_type = "attendance_discipline" then some 3
  else if data_type = "directory_info" then some 2
  else if data_type = "contact_info" then some 2
  else if data_type = "auth_identifiers" then some 1
  else if data_type = "device_identifiers" then some 1
  else none

/-- Embedding of the `REASON_TEMPLATES` dict.  The engine only ever reads keys
present in the dict, so the default branch is never reached at call sites. -/
def REASON_TEMPLATES (code : String) : String :=
  if code = "SENS-IEP" then
    ("System handles IEP/504 data, which is highly sensitive under FERPA and IDEA.")
  else if code = "SENS-HEALTH" then
    ("System collects health data, protected under FERPA and potentially HIPAA.")
  else if code = "SENS-BEHAV" then
    ("System stores behavioral/SEL data, which can be stigmatizing if mishandled.")
  else if code = "SENS-BIO" then
    ("System uses biometric data, requiring special consent and protections.")
  else if code = "SENS-LOC" then
    ("System tracks precise student location, raising significant privacy concerns.")
  else if code = "SENS-DISC" then
    ("System contains discipline records, which are sensitive under FERPA.")
  else if code = "SENS-MEDIA" then
    ("System stores student photos, video, or audio recordings.")
  else if code = "SENS-UNK" then
    ("Data types collected are unknown, adding uncertainty to risk assessment.")
  else if code = "EXPO-SHARE" then
    ("Vendor indicates data is shared with third parties.")
  else if code = "EXPO-ADS" then
    ("Data may be used for advertising or marketing purposes.")
  else if code = "EXPO-AI" then
    ("Data may be used to train AI models.")
  else if code = "EXPO-SOLD" then
    ("Vendor indicates data may be sold or monetized.")
  else if code = "EXPO-SUBP" then
    ("Subprocessors are not disclosed, creating unknown exposure.")
  else if code = "EXPO-GLOBAL" then
    ("Data may be stored or processed outside the US.")
  else if code = "EXPO-BOTH" then
    ("Data stored in both vendor cloud and district systems increases exposure.")
  else if code = "CTRL-NOSSO" then
    ("SSO is not supported or status is unknown.")
  else if code = "CTRL-NOMFA" then
    ("Admin MFA is not available or unknown.")
  else if code = "CTRL-NORBAC" then
    ("Role-based access controls are not available or unknown.")
  else if code = "CTRL-NOTRANS" then
    ("Encryption in transit is not confirmed.")
  else if code = "CTRL-NOREST" then
    ("Encryption at rest is not confirmed.")
  else if code = "CTRL-NOAUDIT" then
    ("Audit logs are not available or unknown.")
  else if code = "POST-RETUNK" then
    ("Retention policy is missing or unknown.")
  else if code = "POST-DELUNK" then
    ("Data deletion process is unclear or requires manual support.")
  else if code = "POST-NODEL" then
    ("No clear process exists for data deletion.")
  else if code = "INT-APIKEY" then
    ("Integration uses API keys, increasing blast radius if exposed.")
  else if code = "INT-REALTIME" then
    ("Real-time data sync increases potential impact of breaches.")
  else if code = "INT-SISWB" then
    ("System writes data back to SIS, amplifying integration risk.")
  else if code = "INT-MULTI" then
    ("Multiple integration types increase attack surface.")
  else ("")

/-- One iteration of the `for data_type in answers.data_types` loop of
`calculate_sensitivity_score`: add the looked-up points and append the
category reason code when the data type is one of the reason-coded ones. -/
def sensitivityStep (acc : Nat × List ReasonCode) (data_type : String) :
    Nat × List ReasonCode :=
  let points := (DATA_TYPE_POINTS data_type).getD 0
  let score := acc.1 + points
  let reasons :=
    if data_type = "iep_504" then
      acc.2 ++ [⟨"SENS-IEP", REASON_TEMPLATES ("SENS-IEP"), "sensitivity", points⟩]
    else if data_type = "health" then
      acc.2 ++ [⟨"SENS-HEALTH", REASON_TEMPLATES ("SENS-HEALTH"), "sensitivity", points⟩]
    else if data_type = "behavioral_sel" then
      acc.2 ++ [⟨"SENS-BEHAV", REASON_TEMPLATES ("SENS-BEHAV"), "sensitivity", points⟩]
    else if data_type = "biometrics" then
      acc.2 ++ [⟨"SENS-BIO", REASON_TEMPLATES ("SENS-BIO"), "sensitivity", points⟩]
    else if data_type = "precise_location" then
      acc.2 ++ [⟨"SENS-LOC", REASON_TEMPLATES ("SENS-LOC"), "sensitivity", points⟩]
    else if data_type = "discipline" ∨ data_type = "attendance_discipline" then
      acc.2 ++ [⟨"SENS-DISC", REASON_TEMPLATES ("SENS-DISC"), "sensitivity", points⟩]
    else if data_type = "photos_video_audio" then
      acc.2 ++ [⟨"SENS-MEDIA", REASON_TEMPLATES ("SENS-MEDIA"), "sensitivity", points⟩]
    else acc.2
  (score, reasons)

/-- Embedding of `calculate_sensitivity_score`. -/
def calculate_sensitivity_score (answers : AssessmentAnswers) :
    Nat × List ReasonCode :=
  if answers.data_types_unknown then
    (min (0 + 10) 30,
      [⟨"SENS-UNK", REASON_TEMPLATES ("SENS-UNK"), "sensitivity", 10⟩])
  else
    let r := answers.data_types.foldl sensitivityStep (0, [])
    (min r.1 30, r.2)

/-- Third-party-sharing block of `calculate_exposure_score`, acting on the
`(score, reasons)` accumulator. -/
def expoSharingStep (answers : AssessmentAnswers) (s : Nat × List ReasonCode) :
    Nat × List ReasonCode :=
  if answers.third_party_sharing = "yes" then
    (s.1 + 6, s.2 ++ [⟨"EXPO-SHARE", REASON_TEMPLATES ("EXPO-SHARE"), "exposure", 6⟩])
  else if answers.third_party_sharing = "unknown" then (s.1 + 4, s.2)
  else s

/-- Advertising block of `calculate_exposure_score`. -/
def expoAdsStep (answers : AssessmentAnswers) (s : Nat × List ReasonCode) :
    Nat × List ReasonCode :=
  if answers.used_for_advertising = "yes" then
    (s.1 + 5, s.2 ++ [⟨"EXPO-ADS", REASON_TEMPLATES ("EXPO-ADS"), "exposure", 5⟩])
  else if answers.used_for_advertising = "unknown" then (s.1 + 3, s.2)
  else s

/-- AI-training block of `calculate_exposure_score`. -/
def expoAiStep (answers : AssessmentAnswers) (s : Nat × List ReasonCode) :
    Nat × List ReasonCode :=
  if answers.used_for_ai_training = "yes" then
    (s.1 + 4, s.2 ++ [⟨"EXPO-AI", REASON_TEMPLATES ("EXPO-AI"), "exposure", 4⟩])
  else if answers.used_for_ai_training = "unknown" then (s.1 + 2, s.2)
  else s

/-- Data-sold block of `calculate_exposure_score`. -/
def expoSoldStep (answers : AssessmentAnswers) (s : Nat × List ReasonCode) :
    Nat × List ReasonCode :=
  if answers.data_sold = "yes" then
    (s.1 + 6, s.2 ++ [⟨"EXPO-SOLD", REASON_TEMPLATES ("EXPO-SOLD"), "exposure", 6⟩])
  else if answers.data_sold = "unknown" then (s.1 + 4, s.2)
  else s

/-- Subprocessors block of `calculate_exposure_score`: the one block that
also emits a reason code on `unknown`. -/
def expoSubprocStep (answers : AssessmentAnswers) (s : Nat × List ReasonCode) :
    Nat × List ReasonCode :=
  if answers.subprocessors_disclosed = "no" then
    (s.1 + 4, s.2 ++ [⟨"EXPO-SUBP", REASON_TEMPLATES ("EXPO-SUBP"), "exposure", 4⟩])
  else if answers.subprocessors_disclosed = "unknown" then
    (s.1 + 3, s.2 ++ [⟨"EXPO-SUBP", REASON_TEMPLATES ("EXPO-SUBP"), "exposure", 3⟩])
  else s

/-- Data-region block of `calculate_exposure_score`. -/
def expoRegionStep (answers : AssessmentAnswers) (s : Nat × List ReasonCode) :
    Nat × List ReasonCode :=
  if answers.data_region = "global" then
    (s.1 + 3, s.2 ++ [⟨"EXPO-GLOBAL", REASON_TEMPLATES ("EXPO-GLOBAL"), "exposure", 3⟩])
  else if answers.data_region = "unknown" then (s.1 + 2, s.2)
  else s

/-- Storage-location block of `calculate_exposure_score`. -/
def expoStorageStep (answers : AssessmentAnswers) (s : Nat × List ReasonCode) :
    Nat × List ReasonCode :=
  if answers.storage_location = "both" then
    (s.1 + 2, s.2 ++ [⟨"EXPO-BOTH", REASON_TEMPLATES ("EXPO-BOTH"), "exposure", 2⟩])
  else if answers.storage_location = "unknown" then (s.1 + 2, s.2)
  else s

/-- Embedding of `calculate_exposure_score`: the seven per-field blocks run
in source order on the `(score, reasons)` accumulator, then the score is
clamped at 25. -/
def calculate_exposure_score (answers : AssessmentAnswers) :
    Nat × List ReasonCode :=
  let s := expoStorageStep answers (expoRegionStep answers (expoSubprocStep
    answers (expoSoldStep answers (expoAiStep answers (expoAdsStep answers
      (expoSharingStep answers (0, [])))))))
  (min s.1 25, s.2)

/-- SSO block of `calculate_security_score`: penalized when the value is
`"none"` or `"unknown"`. -/
def secSsoStep (answers : AssessmentAnswers) (s : Nat × List ReasonCode) :
    Nat × List ReasonCode :=
  if answers.sso_supported = "none" ∨ answers.sso_supported = "unknown" then
    (s.1 + 4, s.2 ++ [⟨"CTRL-NOSSO", REASON_TEMPLATES ("CTRL-NOSSO"), "security", 4⟩])
  else s

/-- MFA block of `calculate_security_score`: penalized on anything but
`"yes"`. -/
def secMfaStep (answers : AssessmentAnswers) (s : Nat × List ReasonCode) :
    Nat × List ReasonCode :=
  if answers.mfa_available ≠ "yes" then
    (s.1 + 4, s.2 ++ [⟨"CTRL-NOMFA", REASON_TEMPLATES ("CTRL-NOMFA"), "security", 4⟩])
  else s

/-- RBAC block of `calculate_security_score`. -/
def secRbacStep (answers : AssessmentAnswers) (s : Nat × List ReasonCode) :
    Nat × List ReasonCode :=
  if answers.rbac_available ≠ "yes" then
    (s.1 + 3, s.2 ++ [⟨"CTRL-NORBAC", REASON_TEMPLATES ("CTRL-NORBAC"), "security", 3⟩])
  else s

/-- Transit-encryption block of `calculate_security_score`. -/
def secTransitStep (answers : AssessmentAnswers) (s : Nat × List ReasonCode) :
    Nat × List ReasonCode :=
  if answers.encryption_transit ≠ "yes" then
    (s.1 + 3, s.2 ++ [⟨"CTRL-NOTRANS", REASON_TEMPLATES ("CTRL-NOTRANS"), "security", 3⟩])
  else s

/-- Rest-encryption block of `calculate_security_score`. -/
def secRestStep (answers : AssessmentAnswers) (s : Nat × List ReasonCode) :
    Nat × List ReasonCode :=
  if answers.encryption_rest ≠ "yes" then
    (s.1 + 3, s.2 ++ [⟨"CTRL-NOREST", REASON_TEMPLATES ("CTRL-NOREST"), "security", 3⟩])
  else s

/-- Audit-log block of `calculate_security_score`. -/
def secAuditStep (answers : AssessmentAnswers) (s : Nat × List ReasonCode) :
    Nat × List ReasonCode :=
  if answers.audit_logs_available ≠ "yes" then
    (s.1 + 3, s.2 ++ [⟨"CTRL-NOAUDIT", REASON_TEMPLATES ("CTRL-NOAUDIT"), "security", 3⟩])
  else s

/-- Embedding of `calculate_security_score`: the six control blocks run in
source order, then the score is clamped at 20. -/
def calculate_security_score (answers : AssessmentAnswers) :
    Nat × List ReasonCode :=
  let s := secAuditStep answers (secRestStep answers (secTransitStep answers
    (secRbacStep answers (secMfaStep answers (secSsoStep answers (0, []))))))
  (min s.1 20, s.2)

/-- Retention block of `calculate_posture_score`: penalized on anything but
`"yes"`. -/
def postRetentionStep (answers : AssessmentAnswers) (s : Nat × List ReasonCode) :
    Nat × List ReasonCode :=
  if answers.retention_policy_stated ≠ "yes" then
    (s.1 + 6, s.2 ++ [⟨"POST-RETUNK", REASON_TEMPLATES ("POST-RETUNK"), "posture", 6⟩])
  else s

/-- Deletion block of `calculate_posture_score`: the four-way enumeration. -/
def postDeletionStep (answers : AssessmentAnswers) (s : Nat × List ReasonCode) :
    Nat × List ReasonCode :=
  if answers.deletion_process = "no" then
    (s.1 + 6, s.2 ++ [⟨"POST-NODEL", REASON_TEMPLATES ("POST-NODEL"), "posture", 6⟩])
  else if answers.deletion_process = "unknown" then
    (s.1 + 5, s.2 ++ [⟨"POST-DELUNK", REASON_TEMPLATES ("POST-DELUNK"), "posture", 5⟩])
  else if answers.deletion_process = "support_ticket" then
    (s.1 + 3, s.2 ++ [⟨"POST-DELUNK", REASON_TEMPLATES ("POST-DELUNK"), "posture", 3⟩])
  else s

/-- Embedding of `calculate_posture_score`. -/
def calculate_posture_score (answers : AssessmentAnswers) :
    Nat × List ReasonCode :=
  let s := postDeletionStep answers (postRetentionStep answers (0, []))
  (min s.1 15, s.2)

/-- Integration-method block of `calculate_integration_score`. -/
def intMethodStep (answers : AssessmentAnswers) (s : Nat × List ReasonCode) :
    Nat × List ReasonCode :=
  if answers.integration_method = "api_key" then
    (s.1 + 3, s.2 ++ [⟨"INT-APIKEY", REASON_TEMPLATES ("INT-APIKEY"), "integration", 3⟩])
  else if answers.integration_method = "unknown" then (s.1 + 2, s.2)
  else s

/-- Frequency block of `calculate_integration_score`. -/
def intFrequencyStep (answers : AssessmentAnswers) (s : Nat × List ReasonCode) :
    Nat × List ReasonCode :=
  if answers.integration_frequency = "realtime" then
    (s.1 + 3, s.2 ++ [⟨"INT-REALTIME", REASON_TEMPLATES ("INT-REALTIME"), "integration", 3⟩])
  else if answers.integration_frequency = "unknown" then (s.1 + 1, s.2)
  else s

/-- SIS-writeback block of `calculate_integration_score`. -/
def intWritebackStep (answers : AssessmentAnswers) (s : Nat × List ReasonCode) :
    Nat × List ReasonCode :=
  if answers.sis_writeback = "yes" then
    (s.1 + 3, s.2 ++ [⟨"INT-SISWB", REASON_TEMPLATES ("INT-SISWB"), "integration", 3⟩])
  else if answers.sis_writeback = "unknown" then (s.1 + 2, s.2)
  else s

/-- Breadth block of `calculate_integration_score`: three or more
integration types add 2. -/
def intMultiStep (answers : AssessmentAnswers) (s : Nat × List ReasonCode) :
    Nat × List ReasonCode :=
  if answers.integration_types.length ≥ 3 then
    (s.1 + 2, s.2 ++ [⟨"INT-MULTI", REASON_TEMPLATES ("INT-MULTI"), "integration", 2⟩])
  else s

/-- Embedding of `calculate_integration_score`. -/
def calculate_integration_score (answers : AssessmentAnswers) :
    Nat × List ReasonCode :=
  let s := intMultiStep answers (intWritebackStep answers (intFrequencyStep
    answers (intMethodStep answers (0, []))))
  (min s.1 10, s.2)

/-- Embedding of `determine_risk_tier`. -/
def determine_risk_tier (score : Nat) : String :=
  if score ≤ 25 then ("Low")
  else if score ≤ 50 then ("Moderate")
  else if score ≤ 75 then ("High")
  else ("Critical")

/-- Stable insertion of a reason code into a list sorted by points descending:
the new element goes before the first element whose points do not exceed its
own, hence after every earlier element with strictly greater or equal rank
position. -/
def insertReasonDesc (x : ReasonCode) : List ReasonCode → List ReasonCode
  | [] => [x]
  | y :: ys => if y.points ≤ x.points then x :: y :: ys else y :: insertReasonDesc x ys

/-- Embedding of `all_reasons.sort(key=lambda r: r.points, reverse=True)`:
Python `list.sort` is a stable sort, here realised as a stable insertion sort
by points descending. -/
def sortReasonsDesc (l : List ReasonCode) : List ReasonCode :=
  l.foldr insertReasonDesc []

/-- Embedding of `calculate_risk_score`. -/
def calculate_risk_score (answers : AssessmentAnswers) : ScoreResult :=
  let sens := calculate_sensitivity_score answers
  let expo := calculate_exposure_score answers
  let sec := calculate_security_score answers
  let post := calculate_posture_score answers
  let intg := calculate_integration_score answers
  let total := min (sens.1 + expo.1 + sec.1 + post.1 + intg.1) 100
  let breakdown : ScoreBreakdown :=
    ⟨sens.1, expo.1, sec.1, post.1, intg.1⟩
  let all_reasons := sortReasonsDesc (sens.2 ++ expo.2 ++ sec.2 ++ post.2 ++ intg.2)
  ⟨total, breakdown, all_reasons, determine_risk_tier total⟩

/-- Spec-side restatement of the sensitivity lookup table, written from the
specified per-key values, to be compared with the source table
`DATA_TYPE_POINTS` (unrecognized keys contribute 0). -/
def sensitivitySpecPoints (d : String) : Nat :=
  if d = "iep_504" then 8
  else if d = "health" then 8
  else if d = "biometrics" then 8
  else if d = "behavioral_sel" then 7
  else if d = "precise_location" then 7
  else if d = "discipline" then 6
  else if d = "photos_video_audio" then 4
  else if d = "staff_notes" then 4
  else if d = "academic_records" then 3
  else if d = "attendance_discipline" then 3
  else if d = "directory_info" then 2
  else if d = "contact_info" then 2
  else if d = "auth_identifiers" then 1
  else if d = "device_identifiers" then 1
  else 0

/-- The reason code (if any) that one occurrence of a data-type key causes the
sensitivity scorer to emit: the seven reason-coded categories, with
`discipline` and `attendance_discipline` sharing `SENS-DISC`. -/
def sensCodeFor (d : String) : Option String :=
  if d = "iep_504" then some ("SENS-IEP")
  else if d = "health" then some ("SENS-HEALTH")
  else if d = "behavioral_sel" then some ("SENS-BEHAV")
  else if d = "biometrics" then some ("SENS-BIO")
  else if d = "precise_location" then some ("SENS-LOC")
  else if d = "discipline" then some ("SENS-DISC")
  else if d = "attendance_discipline" then some ("SENS-DISC")
  else if d = "photos_video_audio" then some ("SENS-MEDIA")
  else none

/-- Spec-side restatement of the exposure sub-score as a sum of independent
per-field contributions, written from the specified weights. -/
def exposureSpecScore (a : AssessmentAnswers) : Nat :=
  (if a.third_party_sharing = "yes" then 6
    else if a.third_party_sharing = "unknown" then 4 else 0) +
  (if a.used_for_advertising = "yes" then 5
    else if a.used_for_advertising = "unknown" then 3 else 0) +
  (if a.used_for_ai_training = "yes" then 4
    else if a.used_for_ai_training = "unknown" then 2 else 0) +
  (if a.data_sold = "yes" then 6
    else if a.data_sold = "unknown" then 4 else 0) +
  (if a.subprocessors_disclosed = "no" then 4
    else if a.subprocessors_disclosed = "unknown" then 3 else 0) +
  (if a.data_region = "global" then 3
    else if a.data_region = "unknown" then 2 else 0) +
  (if a.storage_location = "both" then 2
    else if a.storage_location = "unknown" then 2 else 0)

/-- Spec-side restatement of the exposure reason codes, as (code, points)
pairs in field order; only `subprocessors_disclosed` emits a code on
`unknown`. -/
def exposureSpecCodes (a : AssessmentAnswers) : List (String × Nat) :=
  (if a.third_party_sharing = "yes" then [(("EXPO-SHARE"), 6)] else []) ++
  (if a.used_for_advertising = "yes" then [(("EXPO-ADS"), 5)] else []) ++
  (if a.used_for_ai_training = "yes" then [(("EXPO-AI"), 4)] else []) ++
  (if a.data_sold = "yes" then [(("EXPO-SOLD"), 6)] else []) ++
  (if a.subprocessors_disclosed = "no" then [(("EXPO-SUBP"), 4)]
    else if a.subprocessors_disclosed = "unknown" then [(("EXPO-SUBP"), 3)]
    else []) ++
  (if a.data_region = "global" then [(("EXPO-GLOBAL"), 3)] else []) ++
  (if a.storage_location = "both" then [(("EXPO-BOTH"), 2)] else [])

/-- Spec-side restatement of the vendor-posture sub-score. -/
def postureSpecScore (a : AssessmentAnswers) : Nat :=
  (if a.retention_policy_stated = "yes" then 0 else 6) +
  (if a.deletion_process = "no" then 6
    else if a.deletion_process = "unknown" then 5
    else if a.deletion_process = "support_ticket" then 3 else 0)

/-- Spec-side restatement of the vendor-posture reason codes as
(code, points) pairs: retention non-yes emits POST-RETUNK, the deletion
four-way enumeration emits POST-NODEL / POST-DELUNK as specified. -/
def postureSpecCodes (a : AssessmentAnswers) : List (String × Nat) :=
  (if a.retention_policy_stated = "yes" then [] else [(("POST-RETUNK"), 6)]) ++
  (if a.deletion_process = "no" then [(("POST-NODEL"), 6)]
    else if a.deletion_process = "unknown" then [(("POST-DELUNK"), 5)]
    else if a.deletion_process = "support_ticket" then [(("POST-DELUNK"), 3)]
    else [])

/-- The all-defaults answer set: every enumerated field `"unknown"`, both list
fields empty, `data_types_unknown` false (the pydantic defaults). -/
def defaultAnswers : AssessmentAnswers := {}

/-- A fully benign answer set: all controls affirmed, no sharing, stated
retention, self-serve deletion, US-only vendor-cloud storage, OAuth nightly
integration without SIS writeback, and no collected data types. -/
def benignAnswers : AssessmentAnswers :=
  { data_types := []
    data_types_unknown := false
    storage_location := "vendor_cloud"
    data_region := "us_only"
    subprocessors_disclosed := "yes"
    retention_policy_stated := "yes"
    deletion_process := "self_serve"
    sso_supported := "entra"
    mfa_available := "yes"
    rbac_available := "yes"
    encryption_transit := "yes"
    encryption_rest := "yes"
    audit_logs_available := "yes"
    third_party_sharing := "no"
    used_for_advertising := "no"
    used_for_ai_training := "no"
    data_sold := "no"
    integration_types := []
    integration_method := "oauth"
    integration_frequency := "nightly"
    sis_writeback := "no" }

/-- The benign answer set with one field set to a string outside its declared
vocabulary. -/
def unrecognizedMfaAnswers : AssessmentAnswers :=
  { benignAnswers with mfa_available := "invalid" }

/-- An answer set in which every enumerated field holds a string outside its
declared vocabulary and the data-type list holds a key absent from the lookup
table. -/
def allUnrecognizedAnswers : AssessmentAnswers :=
  { data_types := ["invalid_key"]
    data_types_unknown := false
    storage_location := "invalid"
    data_region := "invalid"
    subprocessors_disclosed := "invalid"
    retention_policy_stated := "invalid"
    deletion_process := "invalid"
    sso_supported := "invalid"
    mfa_available := "invalid"
    rbac_available := "invalid"
    encryption_transit := "invalid"
    encryption_rest := "invalid"
    audit_logs_available := "invalid"
    third_party_sharing := "invalid"
    used_for_advertising := "invalid"
    used_for_ai_training := "invalid"
    data_sold := "invalid"
    integration_types := ["sis", "lms"]
    integration_method := "invalid"
    integration_frequency := "invalid"
    sis_writeback := "invalid" }

/-- The exposure scorer's reason-code list, written field by field (used to
relate the accumulator chain to the per-field policy). -/
def exposureReasonsView (a : AssessmentAnswers) : List ReasonCode :=
  (if a.third_party_sharing = "yes" then
    [⟨"EXPO-SHARE", REASON_TEMPLATES ("EXPO-SHARE"), "exposure", 6⟩] else []) ++
  (if a.used_for_advertising = "yes" then
    [⟨"EXPO-ADS", REASON_TEMPLATES ("EXPO-ADS"), "exposure", 5⟩] else []) ++
  (if a.used_for_ai_training = "yes" then
    [⟨"EXPO-AI", REASON_TEMPLATES ("EXPO-AI"), "exposure", 4⟩] else []) ++
  (if a.data_sold = "yes" then
    [⟨"EXPO-SOLD", REASON_TEMPLATES ("EXPO-SOLD"), "exposure", 6⟩] else []) ++
  (if a.subprocessors_disclosed = "no" then
    [⟨"EXPO-SUBP", REASON_TEMPLATES ("EXPO-SUBP"), "exposure", 4⟩]
    else if a.subprocessors_disclosed = "unknown" then
    [⟨"EXPO-SUBP", REASON_TEMPLATES ("EXPO-SUBP"), "exposure", 3⟩] else []) ++
  (if a.data_region = "global" then
    [⟨"EXPO-GLOBAL", REASON_TEMPLATES ("EXPO-GLOBAL"), "exposure", 3⟩] else []) ++
  (if a.storage_location = "both" then
    [⟨"EXPO-BOTH", REASON_TEMPLATES ("EXPO-BOTH"), "exposure", 2⟩] else [])

/-- The security scorer's raw sum, written field by field. -/
def securityScoreView (a : AssessmentAnswers) : Nat :=
  (if a.sso_supported = "none" ∨ a.sso_supported = "unknown" then 4 else 0) +
  (if a.mfa_available ≠ "yes" then 4 else 0) +
  (if a.rbac_available ≠ "yes" then 3 else 0) +
  (if a.encryption_transit ≠ "yes" then 3 else 0) +
  (if a.encryption_rest ≠ "yes" then 3 else 0) +
  (if a.audit_logs_available ≠ "yes" then 3 else 0)

/-- The security scorer's reason-code list, written field by field. -/
def securityReasonsView (a : AssessmentAnswers) : List ReasonCode :=
  (if a.sso_supported = "none" ∨ a.sso_supported = "unknown" then
    [⟨"CTRL-NOSSO", REASON_TEMPLATES ("CTRL-NOSSO"), "security", 4⟩] else []) ++
  (if a.mfa_available ≠ "yes" then
    [⟨"CTRL-NOMFA", REASON_TEMPLATES ("CTRL-NOMFA"), "security", 4⟩] else []) ++
  (if a.rbac_available ≠ "yes" then
    [⟨"CTRL-NORBAC", REASON_TEMPLATES ("CTRL-NORBAC"), "security", 3⟩] else []) ++
  (if a.encryption_transit ≠ "yes" then
    [⟨"CTRL-NOTRANS", REASON_TEMPLATES ("CTRL-NOTRANS"), "security", 3⟩] else []) ++
  (if a.encryption_rest ≠ "yes" then
    [⟨"CTRL-NOREST", REASON_TEMPLATES ("CTRL-NOREST"), "security", 3⟩] else []) ++
  (if a.audit_logs_available ≠ "yes" then
    [⟨"CTRL-NOAUDIT", REASON_TEMPLATES ("CTRL-NOAUDIT"), "security", 3⟩] else [])

/-- The vendor-posture scorer's raw sum, written field by field with the
source's branch polarity. -/
def postureScoreView (a : AssessmentAnswers) : Nat :=
  (if a.retention_policy_stated ≠ "yes" then 6 else 0) +
  (if a.deletion_process = "no" then 6
    else if a.deletion_process = "unknown" then 5
    else if a.deletion_process = "support_ticket" then 3 else 0)

/-- The vendor-posture scorer's reason-code list, written field by field. -/
def postureReasonsView (a : AssessmentAnswers) : List ReasonCode :=
  (if a.retention_policy_stated ≠ "yes" then
    [⟨"POST-RETUNK", REASON_TEMPLATES ("POST-RETUNK"), "posture", 6⟩] else []) ++
  (if a.deletion_process = "no" then
    [⟨"POST-NODEL", REASON_TEMPLATES ("POST-NODEL"), "posture", 6⟩]
    else if a.deletion_process = "unknown" then
    [⟨"POST-DELUNK", REASON_TEMPLATES ("POST-DELUNK"), "posture", 5⟩]
    else if a.deletion_process = "support_ticket" then
    [⟨"POST-DELUNK", REASON_TEMPLATES ("POST-DELUNK"), "posture", 3⟩] else [])

/-- The integration scorer's raw sum, written field by field. -/
def integrationScoreView (a : AssessmentAnswers) : Nat :=
  (if a.integration_method = "api_key" then 3
    else if a.integration_method = "unknown" then 2 else 0) +
  (if a.integration_frequency = "realtime" then 3
    else if a.integration_frequency = "unknown" then 1 else 0) +
  (if a.sis_writeback = "yes" then 3
    else if a.sis_writeback = "unknown" then 2 else 0) +
  (if a.integration_types.length ≥ 3 then 2 else 0)

/-- The integration scorer's reason-code list, written field by field. -/
def integrationReasonsView (a : AssessmentAnswers) : List ReasonCode :=
  (if a.integration_method = "api_key" then
    [⟨"INT-APIKEY", REASON_TEMPLATES ("INT-APIKEY"), "integration", 3⟩] else []) ++
  (if a.integration_frequency = "realtime" then
    [⟨"INT-REALTIME", REASON_TEMPLATES ("INT-REALTIME"), "integration", 3⟩] else []) ++
  (if a.sis_writeback = "yes" then
    [⟨"INT-SISWB", REASON_TEMPLATES ("INT-SISWB"), "integration", 3⟩] else []) ++
  (if a.integration_types.length ≥ 3 then
    [⟨"INT-MULTI", REASON_TEMPLATES ("INT-MULTI"), "integration", 2⟩] else [])

/-- The reason codes (zero or one) emitted for one occurrence of a data-type
key in the sensitivity loop, carrying the key's looked-up point value. -/
def sensReasonFor (d : String) : List ReasonCode :=
  match sensCodeFor d with
  | some c => [⟨c, REASON_TEMPLATES c, "sensitivity", (DATA_TYPE_POINTS d).getD 0⟩]
  | none => []

/-- A concrete answer set exercising the sensitivity table: one reason-coded
high key, both discipline-related keys, one low key and one unrecognized
key, with no duplicates. -/
def sensWitnessAnswers : AssessmentAnswers :=
  { data_types := ["iep_504", "discipline", "attendance_discipline",
      "directory_info", "new_future_key"]
    data_types_unknown := false }

/-- Unfolding lemma: sorting a cons inserts the head into the sorted tail. -/
theorem sortReasonsDesc_cons (x : ReasonCode) (l : List ReasonCode) :
    sortReasonsDesc (x :: l) = insertReasonDesc x (sortReasonsDesc l) := rfl

/-- Membership is preserved by stable insertion. -/
theorem mem_insertReasonDesc (x r : ReasonCode) (l : List ReasonCode) :
    r ∈ insertReasonDesc x l ↔ r = x ∨ r ∈ l := by
  induction l with
  | nil => simp [insertReasonDesc]
  | cons y ys ih =>
    simp only [insertReasonDesc]
    split
    · simp
    · simp [ih]
      tauto

/-- Membership is preserved by the stable sort. -/
theorem mem_sortReasonsDesc (r : ReasonCode) (l : List ReasonCode) :
    r ∈ sortReasonsDesc l ↔ r ∈ l := by
  induction l with
  | nil => simp [sortReasonsDesc]
  | cons x xs ih =>
    rw [List.mem_cons, sortReasonsDesc_cons, mem_insertReasonDesc, ih]

/-- Stable insertion preserves the sorted-descending invariant. -/
theorem pairwise_insertReasonDesc (x : ReasonCode) (l : List ReasonCode)
    (h : l.Pairwise (fun r s => s.points ≤ r.points)) :
    (insertReasonDesc x l).Pairwise (fun r s => s.points ≤ r.points) := by
  induction l with
  | nil => simp [insertReasonDesc]
  | cons y ys ih =>
    rcases List.pairwise_cons.1 h with ⟨hy, hys⟩
    simp only [insertReasonDesc]
    split
    · refine List.pairwise_cons.2 ⟨?_, h⟩
      intro b hb
      rcases List.mem_cons.1 hb with rfl | hb
      · assumption
      · exact le_trans (hy b hb) (by assumption)
    · refine List.pairwise_cons.2 ⟨?_, ih hys⟩
      intro b hb
      rcases (mem_insertReasonDesc x b ys).1 hb with rfl | hb
      · omega
      · exact hy b hb

/-- The stable sort produces a list whose points are non-increasing. -/
theorem pairwise_sortReasonsDesc (l : List ReasonCode) :
    (sortReasonsDesc l).Pairwise (fun r s => s.points ≤ r.points) := by
  induction l with
  | nil => simp [sortReasonsDesc]
  | cons x xs ih =>
    rw [sortReasonsDesc_cons]
    exact pairwise_insertReasonDesc x _ ih

/-- Inserting an element whose points differ from `p` does not change the
sublist of elements with points `p`. -/
theorem filter_insertReasonDesc_of_ne (x : ReasonCode) (l : List ReasonCode)
    (p : Nat) (hx : x.points ≠ p) :
    (insertReasonDesc x l).filter (fun r => r.points == p) =
      l.filter (fun r => r.points == p) := by
  induction l with
  | nil => simp [insertReasonDesc, hx]
  | cons y ys ih =>
    simp only [insertReasonDesc]
    split
    · simp [List.filter_cons, hx]
    · simp only [List.filter_cons, ih]

/-- Inserting an element whose points equal `p` puts it in front of the
sublist of elements with points `p` (the inserted element is newest among
equals in insertion order, and the fold inserts from the back). -/
theorem filter_insertReasonDesc_of_eq (x : ReasonCode) (l : List ReasonCode)
    (p : Nat) (hx : x.points = p) :
    (insertReasonDesc x l).filter (fun r => r.points == p) =
      x :: l.filter (fun r => r.points == p) := by
  induction l with
  | nil => simp [insertReasonDesc, hx]
  | cons y ys ih =>
    simp only [insertReasonDesc]
    split
    · simp [List.filter_cons, hx]
    · have hy : ¬ (y.points = p) := by omega
      simp [List.filter_cons, hy, ih]

/-- Stability of the sort: for each point value `p`, the elements with points
`p` appear in the sorted output exactly in their input order. -/
theorem filter_sortReasonsDesc (l : List ReasonCode) (p : Nat) :
    (sortReasonsDesc l).filter (fun r => r.points == p) =
      l.filter (fun r => r.points == p) := by
  induction l with
  | nil => rfl
  | cons x xs ih =>
    rw [sortReasonsDesc_cons]
    by_cases hx : x.points = p
    · rw [filter_insertReasonDesc_of_eq x _ p hx, ih, List.filter_cons]
      simp [hx]
    · rw [filter_insertReasonDesc_of_ne x _ p hx, ih, List.filter_cons]
      simp [hx]

/-- The sensitivity sub-score is capped at 30. -/
theorem sensitivity_score_le (a : AssessmentAnswers) :
    (calculate_sensitivity_score a).1 ≤ 30 := by
  simp only [calculate_sensitivity_score]
  split
  · exact Nat.min_le_right _ _
  · exact Nat.min_le_right _ _

/-- The exposure sub-score is capped at 25. -/
theorem exposure_score_le (a : AssessmentAnswers) :
    (calculate_exposure_score a).1 ≤ 25 :=
  Nat.min_le_right _ _

/-- The security-controls sub-score is capped at 20. -/
theorem security_score_le (a : AssessmentAnswers) :
    (calculate_security_score a).1 ≤ 20 :=
  Nat.min_le_right _ _

/-- The vendor-posture sub-score is capped at 15. -/
theorem posture_score_le (a : AssessmentAnswers) :
    (calculate_posture_score a).1 ≤ 15 :=
  Nat.min_le_right _ _

/-- The integration sub-score is capped at 10. -/
theorem integration_score_le (a : AssessmentAnswers) :
    (calculate_integration_score a).1 ≤ 10 :=
  Nat.min_le_right _ _

/-- C1: for every answer set the total is at most 100 (and at least 0, as the
scores are naturals), every breakdown entry is within its category cap
(sensitivity 30, exposure 25, security 20, posture 15, integration 10), the
raw sum of the five already-clamped sub-scores is itself at most 100, and the
final clamp of the total to 100 is therefore a no-op: the total equals the
raw sum. -/
theorem risk_score_bounds (a : AssessmentAnswers) :
    (calculate_risk_score a).total ≤ 100 ∧
    (calculate_risk_score a).breakdown.sensitivity ≤ 30 ∧
    (calculate_risk_score a).breakdown.exposure ≤ 25 ∧
    (calculate_risk_score a).breakdown.security_controls ≤ 20 ∧
    (calculate_risk_score a).breakdown.vendor_posture ≤ 15 ∧
    (calculate_risk_score a).breakdown.integration_blast_radius ≤ 10 ∧
    (calculate_sensitivity_score a).1 + (calculate_exposure_score a).1 +
        (calculate_security_score a).1 + (calculate_posture_score a).1 +
        (calculate_integration_score a).1 ≤ 100 ∧
    (calculate_risk_score a).total =
      (calculate_sensitivity_score a).1 + (calculate_exposure_score a).1 +
        (calculate_security_score a).1 + (calculate_posture_score a).1 +
        (calculate_integration_score a).1 := by
  have h1 := sensitivity_score_le a
  have h2 := exposure_score_le a
  have h3 := security_score_le a
  have h4 := posture_score_le a
  have h5 := integration_score_le a
  have hsum : (calculate_sensitivity_score a).1 + (calculate_exposure_score a).1 +
      (calculate_security_score a).1 + (calculate_posture_score a).1 +
      (calculate_integration_score a).1 ≤ 100 := by omega
  have htot : (calculate_risk_score a).total =
      min ((calculate_sensitivity_score a).1 + (calculate_exposure_score a).1 +
        (calculate_security_score a).1 + (calculate_posture_score a).1 +
        (calculate_integration_score a).1) 100 := rfl
  refine ⟨?_, h1, h2, h3, h4, h5, hsum, ?_⟩
  · rw [htot]; exact Nat.min_le_right _ _
  · rw [htot]; exact Nat.min_eq_left hsum

/-- C2: the risk tier is a pure function of the total with inclusive upper
bounds: every total of the form `min t 25` (i.e. every total at most 25,
including 25) maps to Low, every `26 + min t 24` (i.e. 26 through 50) to
Moderate, every `51 + min t 24` (51 through 75) to High, and every
`76 + min t 24` (76 through 100) to Critical; the boundary totals 25, 26,
50, 51, 75, 76 and 100 are all instances. -/
theorem determine_risk_tier_bands (t : Nat) :
    determine_risk_tier (min t 25) = "Low" ∧
    determine_risk_tier (26 + min t 24) = "Moderate" ∧
    determine_risk_tier (51 + min t 24) = "High" ∧
    determine_risk_tier (76 + min t 24) = "Critical" := by
  have hm : min t 25 ≤ 25 := Nat.min_le_right _ _
  have hm24 : min t 24 ≤ 24 := Nat.min_le_right _ _
  refine ⟨?_, ?_, ?_, ?_⟩ <;>
    · simp only [determine_risk_tier]
      split_ifs <;> first | rfl | omega

/-- C3: when `data_types_unknown` is true the sensitivity scorer returns
exactly 10 with the single reason code SENS-UNK worth 10 points, ignoring
the contents of `data_types` entirely. -/
theorem sensitivity_unknown_override (a : AssessmentAnswers)
    (h : a.data_types_unknown = true) :
    calculate_sensitivity_score a =
      (10, [⟨"SENS-UNK", REASON_TEMPLATES ("SENS-UNK"), "sensitivity", 10⟩]) := by
  simp [calculate_sensitivity_score, h]

/-- Witness for C3 at a concrete answer set whose `data_types` is nonempty:
the override yields 10 points and the single SENS-UNK code, not 10 + 8. -/
theorem sensitivity_unknown_override_witness :
    ({ data_types := ["iep_504"], data_types_unknown := true } :
        AssessmentAnswers).data_types_unknown = true ∧
    calculate_sensitivity_score
        { data_types := ["iep_504"], data_types_unknown := true } =
      (10, [⟨"SENS-UNK", REASON_TEMPLATES ("SENS-UNK"), "sensitivity", 10⟩]) :=
  ⟨rfl, sensitivity_unknown_override _ rfl⟩

/-- C7: the reason codes of the final result are the five scorers' reason
lists, concatenated in scorer order and stably sorted by points descending:
points are non-increasing along the output, and for every point value the
elements carrying that value appear exactly in concatenation order. -/
theorem risk_reason_codes_sorted_stable (a : AssessmentAnswers) :
    (calculate_risk_score a).reason_codes.Pairwise
        (fun r s => s.points ≤ r.points) ∧
    ∀ p : Nat,
      (calculate_risk_score a).reason_codes.filter (fun r => r.points == p) =
        ((calculate_sensitivity_score a).2 ++ (calculate_exposure_score a).2 ++
          (calculate_security_score a).2 ++ (calculate_posture_score a).2 ++
          (calculate_integration_score a).2).filter (fun r => r.points == p) := by
  have hrc : (calculate_risk_score a).reason_codes =
      sortReasonsDesc ((calculate_sensitivity_score a).2 ++
        (calculate_exposure_score a).2 ++ (calculate_security_score a).2 ++
        (calculate_posture_score a).2 ++ (calculate_integration_score a).2) := rfl
  constructor
  · rw [hrc]; exact pairwise_sortReasonsDesc _
  · intro p
    rw [hrc, filter_sortReasonsDesc]

/-- C9: the all-defaults answer set (every enumerated field unknown, lists
empty, `data_types_unknown` false) scores strictly above zero and lands in
the Moderate or High tier (concretely: total 56, tier High). -/
theorem default_answers_scores_risky :
    0 < (calculate_risk_score defaultAnswers).total ∧
    ((calculate_risk_score defaultAnswers).risk_tier = "Moderate" ∨
      (calculate_risk_score defaultAnswers).risk_tier = "High") := by
  have htot : (calculate_risk_score defaultAnswers).total = 56 := rfl
  have htier : (calculate_risk_score defaultAnswers).risk_tier = "High" := rfl
  exact ⟨by omega, Or.inr htier⟩

/-- Each per-field block adds its contribution and appends its codes. -/
theorem expoSharingStep_eq (a : AssessmentAnswers) (s : Nat × List ReasonCode) :
    expoSharingStep a s =
      (s.1 + (if a.third_party_sharing = "yes" then 6
          else if a.third_party_sharing = "unknown" then 4 else 0),
        s.2 ++ (if a.third_party_sharing = "yes" then
          [⟨"EXPO-SHARE", REASON_TEMPLATES ("EXPO-SHARE"), "exposure", 6⟩]
          else [])) := by
  simp only [expoSharingStep]
  split_ifs <;> simp

/-- Advertising block decomposition. -/
theorem expoAdsStep_eq (a : AssessmentAnswers) (s : Nat × List ReasonCode) :
    expoAdsStep a s =
      (s.1 + (if a.used_for_advertising = "yes" then 5
          else if a.used_for_advertising = "unknown" then 3 else 0),
        s.2 ++ (if a.used_for_advertising = "yes" then
          [⟨"EXPO-ADS", REASON_TEMPLATES ("EXPO-ADS"), "exposure", 5⟩]
          else [])) := by
  simp only [expoAdsStep]
  split_ifs <;> simp

/-- AI-training block decomposition. -/
theorem expoAiStep_eq (a : AssessmentAnswers) (s : Nat × List ReasonCode) :
    expoAiStep a s =
      (s.1 + (if a.used_for_ai_training = "yes" then 4
          else if a.used_for_ai_training = "unknown" then 2 else 0),
        s.2 ++ (if a.used_for_ai_training = "yes" then
          [⟨"EXPO-AI", REASON_TEMPLATES ("EXPO-AI"), "exposure", 4⟩]
          else [])) := by
  simp only [expoAiStep]
  split_ifs <;> simp

/-- Data-sold block decomposition. -/
theorem expoSoldStep_eq (a : AssessmentAnswers) (s : Nat × List ReasonCode) :
    expoSoldStep a s =
      (s.1 + (if a.data_sold = "yes" then 6
          else if a.data_sold = "unknown" then 4 else 0),
        s.2 ++ (if a.data_sold = "yes" then
          [⟨"EXPO-SOLD", REASON_TEMPLATES ("EXPO-SOLD"), "exposure", 6⟩]
          else [])) := by
  simp only [expoSoldStep]
  split_ifs <;> simp

/-- Subprocessors block decomposition: a code is emitted on both penalized
values. -/
theorem expoSubprocStep_eq (a : AssessmentAnswers) (s : Nat × List ReasonCode) :
    expoSubprocStep a s =
      (s.1 + (if a.subprocessors_disclosed = "no" then 4
          else if a.subprocessors_disclosed = "unknown" then 3 else 0),
        s.2 ++ (if a.subprocessors_disclosed = "no" then
          [⟨"EXPO-SUBP", REASON_TEMPLATES ("EXPO-SUBP"), "exposure", 4⟩]
          else if a.subprocessors_disclosed = "unknown" then
          [⟨"EXPO-SUBP", REASON_TEMPLATES ("EXPO-SUBP"), "exposure", 3⟩]
          else [])) := by
  simp only [expoSubprocStep]
  split_ifs <;> simp

/-- Data-region block decomposition. -/
theorem expoRegionStep_eq (a : AssessmentAnswers) (s : Nat × List ReasonCode) :
    expoRegionStep a s =
      (s.1 + (if a.data_region = "global" then 3
          else if a.data_region = "unknown" then 2 else 0),
        s.2 ++ (if a.data_region = "global" then
          [⟨"EXPO-GLOBAL", REASON_TEMPLATES ("EXPO-GLOBAL"), "exposure", 3⟩]
          else [])) := by
  simp only [expoRegionStep]
  split_ifs <;> simp

/-- Storage-location block decomposition. -/
theorem expoStorageStep_eq (a : AssessmentAnswers) (s : Nat × List ReasonCode) :
    expoStorageStep a s =
      (s.1 + (if a.storage_location = "both" then 2
          else if a.storage_location = "unknown" then 2 else 0),
        s.2 ++ (if a.storage_location = "both" then
          [⟨"EXPO-BOTH", REASON_TEMPLATES ("EXPO-BOTH"), "exposure", 2⟩]
          else [])) := by
  simp only [expoStorageStep]
  split_ifs <;> simp

/-- The exposure scorer, characterised field by field: the clamp of the raw
per-field sum and the per-field reason codes. -/
theorem exposure_score_eq (a : AssessmentAnswers) :
    calculate_exposure_score a =
      (min (exposureSpecScore a) 25, exposureReasonsView a) := by
  simp only [calculate_exposure_score]
  rw [expoSharingStep_eq, expoAdsStep_eq, expoAiStep_eq, expoSoldStep_eq,
    expoSubprocStep_eq, expoRegionStep_eq, expoStorageStep_eq]
  simp [exposureSpecScore, exposureReasonsView, List.append_assoc]

/-- SSO block decomposition. -/
theorem secSsoStep_eq (a : AssessmentAnswers) (s : Nat × List ReasonCode) :
    secSsoStep a s =
      (s.1 + (if a.sso_supported = "none" ∨ a.sso_supported = "unknown"
          then 4 else 0),
        s.2 ++ (if a.sso_supported = "none" ∨ a.sso_supported = "unknown" then
          [⟨"CTRL-NOSSO", REASON_TEMPLATES ("CTRL-NOSSO"), "security", 4⟩]
          else [])) := by
  simp only [secSsoStep]
  split_ifs <;> simp

/-- MFA block decomposition. -/
theorem secMfaStep_eq (a : AssessmentAnswers) (s : Nat × List ReasonCode) :
    secMfaStep a s =
      (s.1 + (if a.mfa_available ≠ "yes" then 4 else 0),
        s.2 ++ (if a.mfa_available ≠ "yes" then
          [⟨"CTRL-NOMFA", REASON_TEMPLATES ("CTRL-NOMFA"), "security", 4⟩]
          else [])) := by
  simp only [secMfaStep]
  split_ifs <;> simp

/-- RBAC block decomposition. -/
theorem secRbacStep_eq (a : AssessmentAnswers) (s : Nat × List ReasonCode) :
    secRbacStep a s =
      (s.1 + (if a.rbac_available ≠ "yes" then 3 else 0),
        s.2 ++ (if a.rbac_available ≠ "yes" then
          [⟨"CTRL-NORBAC", REASON_TEMPLATES ("CTRL-NORBAC"), "security", 3⟩]
          else [])) := by
  simp only [secRbacStep]
  split_ifs <;> simp

/-- Transit-encryption block decomposition. -/
theorem secTransitStep_eq (a : AssessmentAnswers) (s : Nat × List ReasonCode) :
    secTransitStep a s =
      (s.1 + (if a.encryption_transit ≠ "yes" then 3 else 0),
        s.2 ++ (if a.encryption_transit ≠ "yes" then
          [⟨"CTRL-NOTRANS", REASON_TEMPLATES ("CTRL-NOTRANS"), "security", 3⟩]
          else [])) := by
  simp only [secTransitStep]
  split_ifs <;> simp

/-- Rest-encryption block decomposition. -/
theorem secRestStep_eq (a : AssessmentAnswers) (s : Nat × List ReasonCode) :
    secRestStep a s =
      (s.1 + (if a.encryption_rest ≠ "yes" then 3 else 0),
        s.2 ++ (if a.encryption_rest ≠ "yes" then
          [⟨"CTRL-NOREST", REASON_TEMPLATES ("CTRL-NOREST"), "security", 3⟩]
          else [])) := by
  simp only [secRestStep]
  split_ifs <;> simp

/-- Audit-log block decomposition. -/
theorem secAuditStep_eq (a : AssessmentAnswers) (s : Nat × List ReasonCode) :
    secAuditStep a s =
      (s.1 + (if a.audit_logs_available ≠ "yes" then 3 else 0),
        s.2 ++ (if a.audit_logs_available ≠ "yes" then
          [⟨"CTRL-NOAUDIT", REASON_TEMPLATES ("CTRL-NOAUDIT"), "security", 3⟩]
          else [])) := by
  simp only [secAuditStep]
  split_ifs <;> simp

/-- The security scorer, characterised field by field. -/
theorem security_score_eq (a : AssessmentAnswers) :
    calculate_security_score a =
      (min (securityScoreView a) 20, securityReasonsView a) := by
  simp only [calculate_security_score]
  rw [secSsoStep_eq, secMfaStep_eq, secRbacStep_eq, secTransitStep_eq,
    secRestStep_eq, secAuditStep_eq]
  simp [securityScoreView, securityReasonsView, List.append_assoc]

/-- Retention block decomposition. -/
theorem postRetentionStep_eq (a : AssessmentAnswers) (s : Nat × List ReasonCode) :
    postRetentionStep a s =
      (s.1 + (if a.retention_policy_stated ≠ "yes" then 6 else 0),
        s.2 ++ (if a.retention_policy_stated ≠ "yes" then
          [⟨"POST-RETUNK", REASON_TEMPLATES ("POST-RETUNK"), "posture", 6⟩]
          else [])) := by
  simp only [postRetentionStep]
  split_ifs <;> simp

/-- Deletion block decomposition. -/
theorem postDeletionStep_eq (a : AssessmentAnswers) (s : Nat × List ReasonCode) :
    postDeletionStep a s =
      (s.1 + (if a.deletion_process = "no" then 6
          else if a.deletion_process = "unknown" then 5
          else if a.deletion_process = "support_ticket" then 3 else 0),
        s.2 ++ (if a.deletion_process = "no" then
          [⟨"POST-NODEL", REASON_TEMPLATES ("POST-NODEL"), "posture", 6⟩]
          else if a.deletion_process = "unknown" then
          [⟨"POST-DELUNK", REASON_TEMPLATES ("POST-DELUNK"), "posture", 5⟩]
          else if a.deletion_process = "support_ticket" then
          [⟨"POST-DELUNK", REASON_TEMPLATES ("POST-DELUNK"), "posture", 3⟩]
          else [])) := by
  simp only [postDeletionStep]
  split_ifs <;> simp

/-- The vendor-posture scorer, characterised field by field. -/
theorem posture_score_eq (a : AssessmentAnswers) :
    calculate_posture_score a =
      (min (postureScoreView a) 15, postureReasonsView a) := by
  simp only [calculate_posture_score]
  rw [postRetentionStep_eq, postDeletionStep_eq]
  simp [postureScoreView, postureReasonsView, List.append_assoc]

/-- Integration-method block decomposition. -/
theorem intMethodStep_eq (a : AssessmentAnswers) (s : Nat × List ReasonCode) :
    intMethodStep a s =
      (s.1 + (if a.integration_method = "api_key" then 3
          else if a.integration_method = "unknown" then 2 else 0),
        s.2 ++ (if a.integration_method = "api_key" then
          [⟨"INT-APIKEY", REASON_TEMPLATES ("INT-APIKEY"), "integration", 3⟩]
          else [])) := by
  simp only [intMethodStep]
  split_ifs <;> simp

/-- Frequency block decomposition. -/
theorem intFrequencyStep_eq (a : AssessmentAnswers) (s : Nat × List ReasonCode) :
    intFrequencyStep a s =
      (s.1 + (if a.integration_frequency = "realtime" then 3
          else if a.integration_frequency = "unknown" then 1 else 0),
        s.2 ++ (if a.integration_frequency = "realtime" then
          [⟨"INT-REALTIME", REASON_TEMPLATES ("INT-REALTIME"), "integration", 3⟩]
          else [])) := by
  simp only [intFrequencyStep]
  split_ifs <;> simp

/-- SIS-writeback block decomposition. -/
theorem intWritebackStep_eq (a : AssessmentAnswers) (s : Nat × List ReasonCode) :
    intWritebackStep a s =
      (s.1 + (if a.sis_writeback = "yes" then 3
          else if a.sis_writeback = "unknown" then 2 else 0),
        s.2 ++ (if a.sis_writeback = "yes" then
          [⟨"INT-SISWB", REASON_TEMPLATES ("INT-SISWB"), "integration", 3⟩]
          else [])) := by
  simp only [intWritebackStep]
  split_ifs <;> simp

/-- Breadth block decomposition. -/
theorem intMultiStep_eq (a : AssessmentAnswers) (s : Nat × List ReasonCode) :
    intMultiStep a s =
      (s.1 + (if a.integration_types.length ≥ 3 then 2 else 0),
        s.2 ++ (if a.integration_types.length ≥ 3 then
          [⟨"INT-MULTI", REASON_TEMPLATES ("INT-MULTI"), "integration", 2⟩]
          else [])) := by
  simp only [intMultiStep]
  split_ifs <;> simp

/-- The integration scorer, characterised field by field. -/
theorem integration_score_eq (a : AssessmentAnswers) :
    calculate_integration_score a =
      (min (integrationScoreView a) 10, integrationReasonsView a) := by
  simp only [calculate_integration_score]
  rw [intMethodStep_eq, intFrequencyStep_eq, intWritebackStep_eq,
    intMultiStep_eq]
  simp [integrationScoreView, integrationReasonsView, List.append_assoc]

/-- Mapping the (code, points) projection commutes with branching. -/
theorem map_pair_ite (c : Prop) [Decidable c] (l1 l2 : List ReasonCode) :
    (if c then l1 else l2).map (fun r => (r.code, r.points)) =
      if c then l1.map (fun r => (r.code, r.points))
      else l2.map (fun r => (r.code, r.points)) :=
  apply_ite _ c l1 l2

/-- C5: the exposure sub-score is the clamp at 25 of the specified
independent per-field contributions (sharing 6/4, advertising 5/3,
AI-training 4/2, data-sold 6/4, subprocessors no=4/unknown=3, region
global=3/unknown=2, storage both=2/unknown=2), and the reason codes are
exactly the specified ones, with EXPO-SUBP emitted on both `no` and
`unknown` subprocessor disclosure and no code from the other `unknown`
cases. -/
theorem exposure_matches_spec (a : AssessmentAnswers) :
    (calculate_exposure_score a).1 = min (exposureSpecScore a) 25 ∧
    (calculate_exposure_score a).2.map (fun r => (r.code, r.points)) =
      exposureSpecCodes a := by
  rw [exposure_score_eq]
  refine ⟨rfl, ?_⟩
  simp only [exposureReasonsView, exposureSpecCodes, List.map_append,
    map_pair_ite, List.map_cons, List.map_nil]

/-- C6: the vendor-posture sub-score is the clamp at 15 of 6 points for any
non-yes retention answer plus the four-way deletion weights 6/5/3/0, and the
reason codes are POST-RETUNK, POST-NODEL for `no`, and POST-DELUNK for both
`unknown` (5 points) and `support_ticket` (3 points). -/
theorem posture_matches_spec (a : AssessmentAnswers) :
    (calculate_posture_score a).1 = min (postureSpecScore a) 15 ∧
    (calculate_posture_score a).2.map (fun r => (r.code, r.points)) =
      postureSpecCodes a := by
  rw [posture_score_eq]
  constructor
  · have h : postureScoreView a = postureSpecScore a := by
      simp only [postureScoreView, postureSpecScore]
      split_ifs <;> first | omega | tauto
    rw [h]
  · simp only [postureReasonsView, postureSpecCodes, List.map_append,
      map_pair_ite, List.map_cons, List.map_nil]
    split_ifs <;> first | rfl | tauto

/-- The sensitivity loop body always adds the looked-up points to the score. -/
theorem sensitivityStep_fst (acc : Nat × List ReasonCode) (d : String) :
    (sensitivityStep acc d).1 = acc.1 + (DATA_TYPE_POINTS d).getD 0 := rfl

/-- The sensitivity loop body appends exactly the codes of `sensReasonFor`. -/
theorem sensitivityStep_snd (acc : Nat × List ReasonCode) (d : String) :
    (sensitivityStep acc d).2 = acc.2 ++ sensReasonFor d := by
  simp only [sensitivityStep, sensReasonFor, sensCodeFor]
  split_ifs <;> simp_all

/-- The sensitivity loop accumulates the sum of looked-up point values. -/
theorem foldl_sensitivityStep_fst (l : List String) (acc : Nat × List ReasonCode) :
    (l.foldl sensitivityStep acc).1 =
      acc.1 + (l.map (fun d => (DATA_TYPE_POINTS d).getD 0)).sum := by
  induction l generalizing acc with
  | nil => simp
  | cons d ds ih =>
    rw [List.foldl_cons, ih, sensitivityStep_fst]
    simp [Nat.add_assoc]

/-- The codes emitted by the sensitivity loop are exactly the per-occurrence
codes of `sensCodeFor`, in loop order. -/
theorem foldl_sensitivityStep_codes (l : List String) (acc : Nat × List ReasonCode) :
    ((l.foldl sensitivityStep acc).2).map (fun r => r.code) =
      acc.2.map (fun r => r.code) ++ l.filterMap sensCodeFor := by
  induction l generalizing acc with
  | nil => simp
  | cons d ds ih =>
    rw [List.foldl_cons, ih, sensitivityStep_snd, List.filterMap_cons]
    cases h : sensCodeFor d with
    | none => simp [sensReasonFor, h]
    | some c => simp [sensReasonFor, h]

/-- The source lookup table with default 0 agrees pointwise with the
specified per-key values. -/
theorem data_type_points_spec (d : String) :
    (DATA_TYPE_POINTS d).getD 0 = sensitivitySpecPoints d := by
  rcases eq_or_ne d ("iep_504") with h1 | h1
  · subst h1; decide
  rcases eq_or_ne d ("health") with h2 | h2
  · subst h2; decide
  rcases eq_or_ne d ("behavioral_sel") with h3 | h3
  · subst h3; decide
  rcases eq_or_ne d ("biometrics") with h4 | h4
  · subst h4; decide
  rcases eq_or_ne d ("precise_location") with h5 | h5
  · subst h5; decide
  rcases eq_or_ne d ("discipline") with h6 | h6
  · subst h6; decide
  rcases eq_or_ne d ("photos_video_audio") with h7 | h7
  · subst h7; decide
  rcases eq_or_ne d ("staff_notes") with h8 | h8
  · subst h8; decide
  rcases eq_or_ne d ("academic_records") with h9 | h9
  · subst h9; decide
  rcases eq_or_ne d ("attendance_discipline") with h10 | h10
  · subst h10; decide
  rcases eq_or_ne d ("directory_info") with h11 | h11
  · subst h11; decide
  rcases eq_or_ne d ("contact_info") with h12 | h12
  · subst h12; decide
  rcases eq_or_ne d ("auth_identifiers") with h13 | h13
  · subst h13; decide
  rcases eq_or_ne d ("device_identifiers") with h14 | h14
  · subst h14; decide
  simp [DATA_TYPE_POINTS, sensitivitySpecPoints, h1, h2, h3, h4, h5, h6, h7,
    h8, h9, h10, h11, h12, h13, h14]

/-- SENS-IEP is emitted exactly for the `iep_504` key. -/
theorem sensCodeFor_iep (d : String) :
    sensCodeFor d = some ("SENS-IEP") ↔ d = "iep_504" := by
  simp only [sensCodeFor]
  split_ifs <;> simp_all

/-- SENS-HEALTH is emitted exactly for the `health` key. -/
theorem sensCodeFor_health (d : String) :
    sensCodeFor d = some ("SENS-HEALTH") ↔ d = "health" := by
  simp only [sensCodeFor]
  split_ifs <;> simp_all

/-- SENS-BEHAV is emitted exactly for the `behavioral_sel` key. -/
theorem sensCodeFor_behav (d : String) :
    sensCodeFor d = some ("SENS-BEHAV") ↔ d = "behavioral_sel" := by
  simp only [sensCodeFor]
  split_ifs <;> simp_all

/-- SENS-BIO is emitted exactly for the `biometrics` key. -/
theorem sensCodeFor_bio (d : String) :
    sensCodeFor d = some ("SENS-BIO") ↔ d = "biometrics" := by
  simp only [sensCodeFor]
  split_ifs <;> simp_all

/-- SENS-LOC is emitted exactly for the `precise_location` key. -/
theorem sensCodeFor_loc (d : String) :
    sensCodeFor d = some ("SENS-LOC") ↔ d = "precise_location" := by
  simp only [sensCodeFor]
  split_ifs <;> simp_all

/-- SENS-MEDIA is emitted exactly for the `photos_video_audio` key. -/
theorem sensCodeFor_media (d : String) :
    sensCodeFor d = some ("SENS-MEDIA") ↔ d = "photos_video_audio" := by
  simp only [sensCodeFor]
  split_ifs <;> simp_all

/-- SENS-DISC is emitted exactly for the two discipline-related keys. -/
theorem sensCodeFor_disc (d : String) :
    sensCodeFor d = some ("SENS-DISC") ↔
      d = "discipline" ∨ d = "attendance_discipline" := by
  simp only [sensCodeFor]
  split_ifs <;> simp_all

/-- Every code the sensitivity loop can emit is one of the seven
high/medium-category codes. -/
theorem sensCodeFor_mem_codes (d c : String) (h : sensCodeFor d = some c) :
    c ∈ ["SENS-IEP", "SENS-HEALTH", "SENS-BEHAV", "SENS-BIO", "SENS-LOC",
      "SENS-DISC", "SENS-MEDIA"] := by
  simp only [sensCodeFor] at h
  split_ifs at h <;> simp_all

/-- In a duplicate-free list every value occurs zero or one time. -/
theorem count_of_nodup {l : List String} (h : l.Nodup) (x : String) :
    l.count x = if x ∈ l then 1 else 0 := by
  split
  · exact List.count_eq_one_of_mem h (by assumption)
  · exact List.count_eq_zero_of_not_mem (by assumption)

/-- Counting occurrences of either of two distinct keys adds their counts. -/
theorem countP_two_keys (l : List String) :
    l.countP (fun d => d == "discipline" || d == "attendance_discipline") =
      l.count ("discipline") + l.count ("attendance_discipline") := by
  induction l with
  | nil => rfl
  | cons d ds ih =>
    rw [List.countP_cons, List.count_cons, List.count_cons, ih]
    by_cases h1 : d = "discipline" <;> by_cases h2 : d = "attendance_discipline" <;>
      simp_all <;> omega

/-- For a code emitted by exactly one key, its multiplicity among the loop's
codes over a duplicate-free key list is one when the key is present, zero
otherwise. -/
theorem count_code_single (l : List String) (hnd : l.Nodup) (c key : String)
    (hiff : ∀ d : String, sensCodeFor d = some c ↔ d = key) :
    (l.filterMap sensCodeFor).count c = if key ∈ l then 1 else 0 := by
  rw [List.count_filterMap]
  have h1 : l.countP (fun d => sensCodeFor d == some c) =
      l.countP (fun d => d == key) :=
    List.countP_congr (fun d _ => by
      simp only [beq_iff_eq]
      exact hiff d)
  have h2 : l.countP (fun d => d == key) = l.count key := rfl
  rw [h1, h2, count_of_nodup hnd]

/-- The shared SENS-DISC code is emitted once per present discipline-related
key, so its multiplicity is the sum of the two presence indicators. -/
theorem count_code_disc (l : List String) (hnd : l.Nodup) :
    (l.filterMap sensCodeFor).count ("SENS-DISC") =
      (if "discipline" ∈ l then 1 else 0) +
        (if "attendance_discipline" ∈ l then 1 else 0) := by
  rw [List.count_filterMap]
  have h1 : l.countP (fun d => sensCodeFor d == some ("SENS-DISC")) =
      l.countP (fun d => d == "discipline" || d == "attendance_discipline") :=
    List.countP_congr (fun d _ => by
      simp only [beq_iff_eq, Bool.or_eq_true]
      exact sensCodeFor_disc d)
  rw [h1, countP_two_keys]
  simp only [count_of_nodup hnd]

/-- C4: with `data_types_unknown` false and a duplicate-free `data_types`
set, the sensitivity sub-score is the clamp at 30 of the sum of the
specified per-key values, every emitted code is one of the seven
high/medium-category codes (so low-sensitivity keys emit nothing), each
reason-coded category present yields exactly one code, and `discipline`
and `attendance_discipline` each contribute one occurrence of the shared
SENS-DISC code. -/
theorem sensitivity_matches_spec (a : AssessmentAnswers)
    (hu : a.data_types_unknown = false) (hnd : a.data_types.Nodup) :
    (calculate_sensitivity_score a).1 =
      min ((a.data_types.map sensitivitySpecPoints).sum) 30 ∧
    (∀ r ∈ (calculate_sensitivity_score a).2,
      r.code ∈ ["SENS-IEP", "SENS-HEALTH", "SENS-BEHAV", "SENS-BIO",
        "SENS-LOC", "SENS-DISC", "SENS-MEDIA"]) ∧
    ((calculate_sensitivity_score a).2.map (fun r => r.code)).count ("SENS-IEP")
      = (if "iep_504" ∈ a.data_types then 1 else 0) ∧
    ((calculate_sensitivity_score a).2.map (fun r => r.code)).count ("SENS-HEALTH")
      = (if "health" ∈ a.data_types then 1 else 0) ∧
    ((calculate_sensitivity_score a).2.map (fun r => r.code)).count ("SENS-BEHAV")
      = (if "behavioral_sel" ∈ a.data_types then 1 else 0) ∧
    ((calculate_sensitivity_score a).2.map (fun r => r.code)).count ("SENS-BIO")
      = (if "biometrics" ∈ a.data_types then 1 else 0) ∧
    ((calculate_sensitivity_score a).2.map (fun r => r.code)).count ("SENS-LOC")
      = (if "precise_location" ∈ a.data_types then 1 else 0) ∧
    ((calculate_sensitivity_score a).2.map (fun r => r.code)).count ("SENS-MEDIA")
      = (if "photos_video_audio" ∈ a.data_types then 1 else 0) ∧
    ((calculate_sensitivity_score a).2.map (fun r => r.code)).count ("SENS-DISC")
      = (if "discipline" ∈ a.data_types then 1 else 0) +
        (if "attendance_discipline" ∈ a.data_types then 1 else 0) := by
  have hfst : (calculate_sensitivity_score a).1 =
      min ((a.data_types.foldl sensitivityStep (0, [])).1) 30 := by
    simp [calculate_sensitivity_score, hu]
  have hsnd : (calculate_sensitivity_score a).2 =
      (a.data_types.foldl sensitivityStep (0, [])).2 := by
    simp [calculate_sensitivity_score, hu]
  have hcodes : (calculate_sensitivity_score a).2.map (fun r => r.code) =
      a.data_types.filterMap sensCodeFor := by
    rw [hsnd, foldl_sensitivityStep_codes]
    simp
  refine ⟨?_, ?_, ?_, ?_, ?_, ?_, ?_, ?_, ?_⟩
  · rw [hfst, foldl_sensitivityStep_fst]
    simp [data_type_points_spec]
  · intro r hr
    have hm : r.code ∈ (calculate_sensitivity_score a).2.map (fun r => r.code) :=
      List.mem_map_of_mem _ hr
    rw [hcodes] at hm
    rcases List.mem_filterMap.1 hm with ⟨d, _, hcode⟩
    exact sensCodeFor_mem_codes d r.code hcode
  · rw [hcodes]
    exact count_code_single _ hnd _ _ sensCodeFor_iep
  · rw [hcodes]
    exact count_code_single _ hnd _ _ sensCodeFor_health
  · rw [hcodes]
    exact count_code_single _ hnd _ _ sensCodeFor_behav
  · rw [hcodes]
    exact count_code_single _ hnd _ _ sensCodeFor_bio
  · rw [hcodes]
    exact count_code_single _ hnd _ _ sensCodeFor_loc
  · rw [hcodes]
    exact count_code_single _ hnd _ _ sensCodeFor_media
  · rw [hcodes]
    exact count_code_disc _ hnd

/-- Witness for C4 at the concrete answer set `sensWitnessAnswers`. -/
theorem sensitivity_matches_spec_witness :
    sensWitnessAnswers.data_types_unknown = false ∧
    sensWitnessAnswers.data_types.Nodup ∧
    ((calculate_sensitivity_score sensWitnessAnswers).1 =
      min ((sensWitnessAnswers.data_types.map sensitivitySpecPoints).sum) 30 ∧
    (∀ r ∈ (calculate_sensitivity_score sensWitnessAnswers).2,
      r.code ∈ ["SENS-IEP", "SENS-HEALTH", "SENS-BEHAV", "SENS-BIO",
        "SENS-LOC", "SENS-DISC", "SENS-MEDIA"]) ∧
    ((calculate_sensitivity_score sensWitnessAnswers).2.map
        (fun r => r.code)).count ("SENS-IEP")
      = (if "iep_504" ∈ sensWitnessAnswers.data_types then 1 else 0) ∧
    ((calculate_sensitivity_score sensWitnessAnswers).2.map
        (fun r => r.code)).count ("SENS-HEALTH")
      = (if "health" ∈ sensWitnessAnswers.data_types then 1 else 0) ∧
    ((calculate_sensitivity_score sensWitnessAnswers).2.map
        (fun r => r.code)).count ("SENS-BEHAV")
      = (if "behavioral_sel" ∈ sensWitnessAnswers.data_types then 1 else 0) ∧
    ((calculate_sensitivity_score sensWitnessAnswers).2.map
        (fun r => r.code)).count ("SENS-BIO")
      = (if "biometrics" ∈ sensWitnessAnswers.data_types then 1 else 0) ∧
    ((calculate_sensitivity_score sensWitnessAnswers).2.map
        (fun r => r.code)).count ("SENS-LOC")
      = (if "precise_location" ∈ sensWitnessAnswers.data_types then 1 else 0) ∧
    ((calculate_sensitivity_score sensWitnessAnswers).2.map
        (fun r => r.code)).count ("SENS-MEDIA")
      = (if "photos_video_audio" ∈ sensWitnessAnswers.data_types then 1 else 0) ∧
    ((calculate_sensitivity_score sensWitnessAnswers).2.map
        (fun r => r.code)).count ("SENS-DISC")
      = (if "discipline" ∈ sensWitnessAnswers.data_types then 1 else 0) +
        (if "attendance_discipline" ∈ sensWitnessAnswers.data_types
          then 1 else 0)) :=
  ⟨rfl, by decide, sensitivity_matches_spec sensWitnessAnswers rfl (by decide)⟩

/-- The empty reason list trivially has positive points. -/
theorem points_pos_nil : ∀ r ∈ ([] : List ReasonCode), 1 ≤ r.points := by
  simp

/-- Positivity is preserved by concatenation. -/
theorem points_pos_append {l1 l2 : List ReasonCode}
    (h1 : ∀ r ∈ l1, 1 ≤ r.points) (h2 : ∀ r ∈ l2, 1 ≤ r.points) :
    ∀ r ∈ l1 ++ l2, 1 ≤ r.points := by
  intro r hr
  rcases List.mem_append.1 hr with h | h
  · exact h1 r h
  · exact h2 r h

/-- Positivity is preserved by branching. -/
theorem points_pos_ite {c : Prop} [Decidable c] {l1 l2 : List ReasonCode}
    (h1 : ∀ r ∈ l1, 1 ≤ r.points) (h2 : ∀ r ∈ l2, 1 ≤ r.points) :
    ∀ r ∈ (if c then l1 else l2), 1 ≤ r.points := by
  split
  · exact h1
  · exact h2

/-- A singleton with positive points. -/
theorem points_pos_singleton {x : ReasonCode} (hx : 1 ≤ x.points) :
    ∀ r ∈ [x], 1 ≤ r.points := by
  intro r hr
  rw [List.mem_singleton] at hr
  subst hr
  exact hx

/-- Every exposure reason code carries at least one point. -/
theorem exposure_points_pos (a : AssessmentAnswers) :
    ∀ r ∈ (calculate_exposure_score a).2, 1 ≤ r.points := by
  have h : (calculate_exposure_score a).2 = exposureReasonsView a := by
    rw [exposure_score_eq]
  rw [h]
  unfold exposureReasonsView
  repeat'
    first
    | exact points_pos_nil
    | apply points_pos_append
    | apply points_pos_ite
    | exact points_pos_singleton (by decide)

/-- Every security reason code carries at least one point. -/
theorem security_points_pos (a : AssessmentAnswers) :
    ∀ r ∈ (calculate_security_score a).2, 1 ≤ r.points := by
  have h : (calculate_security_score a).2 = securityReasonsView a := by
    rw [security_score_eq]
  rw [h]
  unfold securityReasonsView
  repeat'
    first
    | exact points_pos_nil
    | apply points_pos_append
    | apply points_pos_ite
    | exact points_pos_singleton (by decide)

/-- Every vendor-posture reason code carries at least one point. -/
theorem posture_points_pos (a : AssessmentAnswers) :
    ∀ r ∈ (calculate_posture_score a).2, 1 ≤ r.points := by
  have h : (calculate_posture_score a).2 = postureReasonsView a := by
    rw [posture_score_eq]
  rw [h]
  unfold postureReasonsView
  repeat'
    first
    | exact points_pos_nil
    | apply points_pos_append
    | apply points_pos_ite
    | exact points_pos_singleton (by decide)

/-- Every integration reason code carries at least one point. -/
theorem integration_points_pos (a : AssessmentAnswers) :
    ∀ r ∈ (calculate_integration_score a).2, 1 ≤ r.points := by
  have h : (calculate_integration_score a).2 = integrationReasonsView a := by
    rw [integration_score_eq]
  rw [h]
  unfold integrationReasonsView
  repeat'
    first
    | exact points_pos_nil
    | apply points_pos_append
    | apply points_pos_ite
    | exact points_pos_singleton (by decide)

/-- Every code the sensitivity loop emits carries the (positive) point value
of its key. -/
theorem sensReasonFor_points (d : String) :
    ∀ r ∈ sensReasonFor d, 1 ≤ r.points := by
  intro r hr
  simp only [sensReasonFor] at hr
  rcases h : sensCodeFor d with _ | c
  · rw [h] at hr
    simp at hr
  · rw [h] at hr
    rw [List.mem_singleton] at hr
    subst hr
    show 1 ≤ (DATA_TYPE_POINTS d).getD 0
    rw [data_type_points_spec]
    simp only [sensCodeFor] at h
    split_ifs at h with h1 h2 h3 h4 h5 h6 h7 h8 <;> subst_vars <;> decide

/-- The sensitivity loop preserves positivity of the accumulated codes. -/
theorem foldl_sensitivityStep_points (l : List String)
    (acc : Nat × List ReasonCode) (hacc : ∀ r ∈ acc.2, 1 ≤ r.points) :
    ∀ r ∈ (l.foldl sensitivityStep acc).2, 1 ≤ r.points := by
  induction l generalizing acc with
  | nil => exact hacc
  | cons d ds ih =>
    rw [List.foldl_cons]
    apply ih
    intro r hr
    rw [sensitivityStep_snd] at hr
    exact points_pos_append hacc (sensReasonFor_points d) r hr

/-- Every sensitivity reason code carries at least one point. -/
theorem sensitivity_points_pos (a : AssessmentAnswers) :
    ∀ r ∈ (calculate_sensitivity_score a).2, 1 ≤ r.points := by
  simp only [calculate_sensitivity_score]
  split
  · intro r hr
    simp only [List.mem_singleton] at hr
    subst hr
    decide
  · intro r hr
    exact foldl_sensitivityStep_points a.data_types (0, []) (by simp) r hr

/-- C10: every reason code in the result of `calculate_risk_score` carries
strictly positive points — none of the five scorers ever emits a zero-point
code. -/
theorem reason_codes_points_pos (a : AssessmentAnswers) :
    ∀ r ∈ (calculate_risk_score a).reason_codes, 1 ≤ r.points := by
  intro r hr
  have hrc : (calculate_risk_score a).reason_codes =
      sortReasonsDesc ((calculate_sensitivity_score a).2 ++
        (calculate_exposure_score a).2 ++ (calculate_security_score a).2 ++
        (calculate_posture_score a).2 ++ (calculate_integration_score a).2) := rfl
  rw [hrc, mem_sortReasonsDesc] at hr
  simp only [List.mem_append] at hr
  rcases hr with (((h | h) | h) | h) | h
  · exact sensitivity_points_pos a r h
  · exact exposure_points_pos a r h
  · exact security_points_pos a r h
  · exact posture_points_pos a r h
  · exact integration_points_pos a r h

/-- Witness for C10: the POST-RETUNK code emitted for the all-defaults
answer set carries positive points. -/
theorem reason_codes_points_pos_witness :
    (⟨"POST-RETUNK", REASON_TEMPLATES ("POST-RETUNK"), "posture", 6⟩ :
        ReasonCode) ∈ (calculate_risk_score defaultAnswers).reason_codes ∧
    1 ≤ (⟨"POST-RETUNK", REASON_TEMPLATES ("POST-RETUNK"), "posture", 6⟩ :
        ReasonCode).points :=
  ⟨by decide, reason_codes_points_pos defaultAnswers _ (by decide)⟩

/-- C8 counterexample: an unrecognized enum value does not always fall into a
no-penalty branch.  On the fully benign answer set the engine returns total 0
with no reason codes, but changing only `mfa_available` to the unrecognized
string `"invalid"` adds 4 points and emits the CTRL-NOMFA reason code. -/
theorem unrecognized_value_penalized :
    (calculate_risk_score benignAnswers).total = 0 ∧
    (calculate_risk_score benignAnswers).reason_codes = [] ∧
    (calculate_risk_score unrecognizedMfaAnswers).total = 4 ∧
    (calculate_risk_score unrecognizedMfaAnswers).reason_codes.map
      (fun r => (r.code, r.points)) = [(("CTRL-NOMFA"), 4)] :=
  ⟨rfl, rfl, rfl, rfl⟩

/-- A data-type key absent from the lookup table contributes nothing. -/
theorem sensitivityStep_inert (acc : Nat × List ReasonCode) (d : String)
    (hd : DATA_TYPE_POINTS d = none) : sensitivityStep acc d = acc := by
  have h1 : d ≠ "iep_504" := by rintro rfl; simp [DATA_TYPE_POINTS] at hd
  have h2 : d ≠ "health" := by rintro rfl; simp [DATA_TYPE_POINTS] at hd
  have h3 : d ≠ "behavioral_sel" := by rintro rfl; simp [DATA_TYPE_POINTS] at hd
  have h4 : d ≠ "biometrics" := by rintro rfl; simp [DATA_TYPE_POINTS] at hd
  have h5 : d ≠ "precise_location" := by rintro rfl; simp [DATA_TYPE_POINTS] at hd
  have h6 : d ≠ "discipline" := by rintro rfl; simp [DATA_TYPE_POINTS] at hd
  have h7 : d ≠ "attendance_discipline" := by
    rintro rfl; simp [DATA_TYPE_POINTS] at hd
  have h8 : d ≠ "photos_video_audio" := by
    rintro rfl; simp [DATA_TYPE_POINTS] at hd
  simp [sensitivityStep, h1, h2, h3, h4, h5, h6, h7, h8, hd]

/-- A list of unrecognized data-type keys leaves the accumulator unchanged. -/
theorem foldl_sensitivityStep_inert (l : List String)
    (acc : Nat × List ReasonCode) (h : ∀ d ∈ l, DATA_TYPE_POINTS d = none) :
    l.foldl sensitivityStep acc = acc := by
  induction l generalizing acc with
  | nil => rfl
  | cons d ds ih =>
    rw [List.foldl_cons, sensitivityStep_inert acc d (h d (by simp))]
    exact ih acc (fun x hx => h x (by simp [hx]))

/-- C8 amended: the engine is total over the answer-set shape and returns a
complete result for values outside every declared vocabulary; unrecognized
values in the positively-tested fields (all exposure fields, SSO, deletion
process, integration fields, data-type keys) contribute 0 points and no
reason code, while the fields compared against `"yes"` (MFA, RBAC, both
encryption flags, audit logs, retention) penalize an unrecognized value
exactly like `"no"`/`"unknown"`: with every field unrecognized (and fewer
than three integration types) the result is total 22, breakdown
(0, 0, 16, 6, 0), the six corresponding codes, and tier Low. -/
theorem risk_score_unrecognized_values (a : AssessmentAnswers)
    (hdu : a.data_types_unknown = false)
    (hdt : ∀ d ∈ a.data_types, DATA_TYPE_POINTS d = none)
    (hsl : a.storage_location ∉
      (["vendor_cloud", "district", "both", "unknown"] : List String))
    (hdr : a.data_region ∉ (["us_only", "eu", "global", "unknown"] : List String))
    (hsp : a.subprocessors_disclosed ∉ (["yes", "no", "unknown"] : List String))
    (hrp : a.retention_policy_stated ∉ (["yes", "no", "unknown"] : List String))
    (hdp : a.deletion_process ∉
      (["self_serve", "support_ticket", "no", "unknown"] : List String))
    (hss : a.sso_supported ∉
      (["entra", "google", "other", "none", "unknown"] : List String))
    (hmf : a.mfa_available ∉ (["yes", "no", "unknown"] : List String))
    (hrb : a.rbac_available ∉ (["yes", "no", "unknown"] : List String))
    (het : a.encryption_transit ∉ (["yes", "no", "unknown"] : List String))
    (her : a.encryption_rest ∉ (["yes", "no", "unknown"] : List String))
    (hal : a.audit_logs_available ∉ (["yes", "no", "unknown"] : List String))
    (htp : a.third_party_sharing ∉ (["yes", "no", "unknown"] : List String))
    (hua : a.used_for_advertising ∉ (["yes", "no", "unknown"] : List String))
    (hut : a.used_for_ai_training ∉ (["yes", "no", "unknown"] : List String))
    (hds : a.data_sold ∉ (["yes", "no", "unknown"] : List String))
    (him : a.integration_method ∉
      (["oauth", "api_key", "csv_manual", "unknown"] : List String))
    (hif : a.integration_frequency ∉
      (["realtime", "nightly", "adhoc", "unknown"] : List String))
    (hsw : a.sis_writeback ∉ (["yes", "no", "unknown"] : List String))
    (hit : a.integration_types.length < 3) :
    calculate_risk_score a =
      ⟨22, ⟨0, 0, 16, 6, 0⟩,
        [⟨"POST-RETUNK", REASON_TEMPLATES ("POST-RETUNK"), "posture", 6⟩,
          ⟨"CTRL-NOMFA", REASON_TEMPLATES ("CTRL-NOMFA"), "security", 4⟩,
          ⟨"CTRL-NORBAC", REASON_TEMPLATES ("CTRL-NORBAC"), "security", 3⟩,
          ⟨"CTRL-NOTRANS", REASON_TEMPLATES ("CTRL-NOTRANS"), "security", 3⟩,
          ⟨"CTRL-NOREST", REASON_TEMPLATES ("CTRL-NOREST"), "security", 3⟩,
          ⟨"CTRL-NOAUDIT", REASON_TEMPLATES ("CTRL-NOAUDIT"), "security", 3⟩],
        "Low"⟩ := by
  simp only [List.mem_cons, List.not_mem_nil, or_false, not_or] at hsl hdr hsp
  simp only [List.mem_cons, List.not_mem_nil, or_false, not_or] at hrp hdp hss
  simp only [List.mem_cons, List.not_mem_nil, or_false, not_or] at hmf hrb het
  simp only [List.mem_cons, List.not_mem_nil, or_false, not_or] at her hal htp
  simp only [List.mem_cons, List.not_mem_nil, or_false, not_or] at hua hut hds
  simp only [List.mem_cons, List.not_mem_nil, or_false, not_or] at him hif hsw
  obtain ⟨hsl1, hsl2, hsl3, hsl4⟩ := hsl
  obtain ⟨hdr1, hdr2, hdr3, hdr4⟩ := hdr
  obtain ⟨hsp1, hsp2, hsp3⟩ := hsp
  obtain ⟨hrp1, hrp2, hrp3⟩ := hrp
  obtain ⟨hdp1, hdp2, hdp3, hdp4⟩ := hdp
  obtain ⟨hss1, hss2, hss3, hss4, hss5⟩ := hss
  obtain ⟨hmf1, hmf2, hmf3⟩ := hmf
  obtain ⟨hrb1, hrb2, hrb3⟩ := hrb
  obtain ⟨het1, het2, het3⟩ := het
  obtain ⟨her1, her2, her3⟩ := her
  obtain ⟨hal1, hal2, hal3⟩ := hal
  obtain ⟨htp1, htp2, htp3⟩ := htp
  obtain ⟨hua1, hua2, hua3⟩ := hua
  obtain ⟨hut1, hut2, hut3⟩ := hut
  obtain ⟨hds1, hds2, hds3⟩ := hds
  obtain ⟨him1, him2, him3, him4⟩ := him
  obtain ⟨hif1, hif2, hif3, hif4⟩ := hif
  obtain ⟨hsw1, hsw2, hsw3⟩ := hsw
  have hsens : calculate_sensitivity_score a = (0, []) := by
    simp [calculate_sensitivity_score, hdu,
      foldl_sensitivityStep_inert a.data_types ((0 : Nat), ([] : List ReasonCode)) hdt]
  have hexpo : calculate_exposure_score a = (0, []) := by
    rw [exposure_score_eq]
    simp [exposureSpecScore, exposureReasonsView, htp1, htp3, hua1, hua3,
      hut1, hut3, hds1, hds3, hsp2, hsp3, hdr3, hdr4, hsl3, hsl4]
  have hsec : calculate_security_score a =
      (16, [⟨"CTRL-NOMFA", REASON_TEMPLATES ("CTRL-NOMFA"), "security", 4⟩,
        ⟨"CTRL-NORBAC", REASON_TEMPLATES ("CTRL-NORBAC"), "security", 3⟩,
        ⟨"CTRL-NOTRANS", REASON_TEMPLATES ("CTRL-NOTRANS"), "security", 3⟩,
        ⟨"CTRL-NOREST", REASON_TEMPLATES ("CTRL-NOREST"), "security", 3⟩,
        ⟨"CTRL-NOAUDIT", REASON_TEMPLATES ("CTRL-NOAUDIT"), "security", 3⟩]) := by
    rw [security_score_eq]
    simp [securityScoreView, securityReasonsView, hss4, hss5, hmf1, hrb1,
      het1, her1, hal1]
  have hpost : calculate_posture_score a =
      (6, [⟨"POST-RETUNK", REASON_TEMPLATES ("POST-RETUNK"), "posture", 6⟩]) := by
    rw [posture_score_eq]
    simp [postureScoreView, postureReasonsView, hrp1, hdp2, hdp3, hdp4]
  have hint : calculate_integration_score a = (0, []) := by
    rw [integration_score_eq]
    have hlen : ¬ (a.integration_types.length ≥ 3) := by omega
    simp [integrationScoreView, integrationReasonsView, him2, him4, hif1,
      hif4, hsw1, hsw3, hlen]
  simp only [calculate_risk_score, hsens, hexpo, hsec, hpost, hint]
  rfl

/-- Witness for the amended C8 at the concrete answer set in which every
enumerated field holds a value outside its vocabulary. -/
theorem risk_score_unrecognized_values_witness :
    allUnrecognizedAnswers.data_types_unknown = false ∧
    (∀ d ∈ allUnrecognizedAnswers.data_types, DATA_TYPE_POINTS d = none) ∧
    allUnrecognizedAnswers.storage_location ∉
      (["vendor_cloud", "district", "both", "unknown"] : List String) ∧
    allUnrecognizedAnswers.data_region ∉
      (["us_only", "eu", "global", "unknown"] : List String) ∧
    allUnrecognizedAnswers.subprocessors_disclosed ∉
      (["yes", "no", "unknown"] : List String) ∧
    allUnrecognizedAnswers.retention_policy_stated ∉
      (["yes", "no", "unknown"] : List String) ∧
    allUnrecognizedAnswers.deletion_process ∉
      (["self_serve", "support_ticket", "no", "unknown"] : List String) ∧
    allUnrecognizedAnswers.sso_supported ∉
      (["entra", "google", "other", "none", "unknown"] : List String) ∧
    allUnrecognizedAnswers.mfa_available ∉
      (["yes", "no", "unknown"] : List String) ∧
    allUnrecognizedAnswers.rbac_available ∉
      (["yes", "no", "unknown"] : List String) ∧
    allUnrecognizedAnswers.encryption_transit ∉
      (["yes", "no", "unknown"] : List String) ∧
    allUnrecognizedAnswers.encryption_rest ∉
      (["yes", "no", "unknown"] : List String) ∧
    allUnrecognizedAnswers.audit_logs_available ∉
      (["yes", "no", "unknown"] : List String) ∧
    allUnrecognizedAnswers.third_party_sharing ∉
      (["yes", "no", "unknown"] : List String) ∧
    allUnrecognizedAnswers.used_for_advertising ∉
      (["yes", "no", "unknown"] : List String) ∧
    allUnrecognizedAnswers.used_for_ai_training ∉
      (["yes", "no", "unknown"] : List String) ∧
    allUnrecognizedAnswers.data_sold ∉
      (["yes", "no", "unknown"] : List String) ∧
    allUnrecognizedAnswers.integration_method ∉
      (["oauth", "api_key", "csv_manual", "unknown"] : List String) ∧
    allUnrecognizedAnswers.integration_frequency ∉
      (["realtime", "nightly", "adhoc", "unknown"] : List String) ∧
    allUnrecognizedAnswers.sis_writeback ∉
      (["yes", "no", "unknown"] : List String) ∧
    allUnrecognizedAnswers.integration_types.length < 3 ∧
    calculate_risk_score allUnrecognizedAnswers =
      ⟨22, ⟨0, 0, 16, 6, 0⟩,
        [⟨"POST-RETUNK", REASON_TEMPLATES ("POST-RETUNK"), "posture", 6⟩,
          ⟨"CTRL-NOMFA", REASON_TEMPLATES ("CTRL-NOMFA"), "security", 4⟩,
          ⟨"CTRL-NORBAC", REASON_TEMPLATES ("CTRL-NORBAC"), "security", 3⟩,
          ⟨"CTRL-NOTRANS", REASON_TEMPLATES ("CTRL-NOTRANS"), "security", 3⟩,
          ⟨"CTRL-NOREST", REASON_TEMPLATES ("CTRL-NOREST"), "security", 3⟩,
          ⟨"CTRL-NOAUDIT", REASON_TEMPLATES ("CTRL-NOAUDIT"), "security", 3⟩],
        "Low"⟩ := by
  have hdu : allUnrecognizedAnswers.data_types_unknown = false := rfl
  have hdt : ∀ d ∈ allUnrecognizedAnswers.data_types,
      DATA_TYPE_POINTS d = none := by decide
  have hsl : allUnrecognizedAnswers.storage_location ∉
      (["vendor_cloud", "district", "both", "unknown"] : List String) := by
    decide
  have hdr : allUnrecognizedAnswers.data_region ∉
      (["us_only", "eu", "global", "unknown"] : List String) := by decide
  have hsp : allUnrecognizedAnswers.subprocessors_disclosed ∉
      (["yes", "no", "unknown"] : List String) := by decide
  have hrp : allUnrecognizedAnswers.retention_policy_stated ∉
      (["yes", "no", "unknown"] : List String) := by decide
  have hdp : allUnrecognizedAnswers.deletion_process ∉
      (["self_serve", "support_ticket", "no", "unknown"] : List String) := by
    decide
  have hss : allUnrecognizedAnswers.sso_supported ∉
      (["entra", "google", "other", "none", "unknown"] : List String) := by
    decide
  have hmf : allUnrecognizedAnswers.mfa_available ∉
      (["yes", "no", "unknown"] : List String) := by decide
  have hrb : allUnrecognizedAnswers.rbac_available ∉
      (["yes", "no", "unknown"] : List String) := by decide
  have het : allUnrecognizedAnswers.encryption_transit ∉
      (["yes", "no", "unknown"] : List String) := by decide
  have her : allUnrecognizedAnswers.encryption_rest ∉
      (["yes", "no", "unknown"] : List String) := by decide
  have hal : allUnrecognizedAnswers.audit_logs_available ∉
      (["yes", "no", "unknown"] : List String) := by decide
  have htp : allUnrecognizedAnswers.third_party_sharing ∉
      (["yes", "no", "unknown"] : List String) := by decide
  have hua : allUnrecognizedAnswers.used_for_advertising ∉
      (["yes", "no", "unknown"] : List String) := by decide
  have hut : allUnrecognizedAnswers.used_for_ai_training ∉
      (["yes", "no", "unknown"] : List String) := by decide
  have hds : allUnrecognizedAnswers.data_sold ∉
      (["yes", "no", "unknown"] : List String) := by decide
  have him : allUnrecognizedAnswers.integration_method ∉
      (["oauth", "api_key", "csv_manual", "unknown"] : List String) := by
    decide
  have hif : allUnrecognizedAnswers.integration_frequency ∉
      (["realtime", "nightly", "adhoc", "unknown"] : List String) := by decide
  have hsw : allUnrecognizedAnswers.sis_writeback ∉
      (["yes", "no", "unknown"] : List String) := by decide
  have hit : allUnrecognizedAnswers.integration_types.length < 3 := by decide
  exact ⟨hdu, hdt, hsl, hdr, hsp, hrp, hdp, hss, hmf, hrb, het, her, hal,
    htp, hua, hut, hds, him, hif, hsw, hit,
    risk_score_unrecognized_values allUnrecognizedAnswers hdu hdt hsl hdr
      hsp hrp hdp hss hmf hrb het her hal htp hua hut hds him hif hsw hit⟩
